import Mathlib

/-
Verification of the sync/acquisition pipeline of the music-auto repository:
the sync-state ledger (src/core/sync_state.py), the retrying download engine
(src/core/download.py), the file organizer (src/core/organizer.py) and the
per-item processing step of the sync command (src/cli/commands/sync.py).

Strings are modelled as `List Char`; Python dicts with string keys as
association lists (Python dicts preserve insertion order); the filesystem and
the network are modelled by explicit parameters (the set of existing target
paths, an oracle giving the outcome of each download attempt).
-/

/-! ### Python string primitives -/

/-- Characters stripped by `str.strip()` / matched by the regex `\s`
(Python 3, unicode string patterns). -/
def pyIsSpace (c : Char) : Bool :=
  c == ' ' || c == '\t' || c == '\n' || c == '\u000b' || c == '\u000c' ||
  c == '\r' || c == '\u001c' || c == '\u001d' || c == '\u001e' || c == '\u001f' ||
  c == '\u0085' || c == '\u00A0' || c == '\u1680' ||
  ('\u2000' ≤ c && c ≤ '\u200A') ||
  c == '\u2028' || c == '\u2029' || c == '\u202F' || c == '\u205F' || c == '\u3000'

/-- `INVALID_CHARS = re.compile(r'[<>:"/\\|?*\x00-\x1f]')` (organizer.py). -/
def isInvalidChar (c : Char) : Bool :=
  c == '<' || c == '>' || c == ':' || c == '"' || c == '/' || c == '\\' ||
  c == '|' || c == '?' || c == '*' || decide (c.toNat ≤ 0x1f)

/-- `str.lstrip` with a character class given as a predicate. -/
def lstrip (p : Char → Bool) (l : List Char) : List Char := l.dropWhile p

/-- `str.rstrip` with a character class given as a predicate. -/
def rstrip (p : Char → Bool) (l : List Char) : List Char :=
  (l.reverse.dropWhile p).reverse

/-- `str.strip` with a character class given as a predicate. -/
def pyStrip (p : Char → Bool) (l : List Char) : List Char := rstrip p (lstrip p l)

/-- The character class of `strip(". ")` in organizer.py. -/
def dotSpace (c : Char) : Bool := c == '.' || c == ' '

/-- Replace every whitespace character by a plain space (first half of
`MULTI_SPACE.sub(" ", name)`: each whitespace char of a run is normalized,
then runs are collapsed by `squeezeChar`). -/
def spaceify (c : Char) : Char := if pyIsSpace c then ' ' else c

/-- Collapse adjacent repetitions of the character `t` to a single
occurrence.  `squeezeChar ' '` after `spaceify` is `re.sub(r"\s+", " ", s)`;
`squeezeChar '-'` is `MULTI_DASH.sub("-", s)` (runs of one dash are already
single). -/
def squeezeChar (t : Char) : List Char → List Char
  | [] => []
  | [a] => [a]
  | a :: b :: rest =>
    if a == t && b == t then squeezeChar t (b :: rest)
    else a :: squeezeChar t (b :: rest)

/-- `name.replace("&", "and")` (the pattern is a single character). -/
def replaceAmp (l : List Char) : List Char :=
  (l.map (fun c => if c == '&' then "and".data else [c])).flatten

/--
`sanitize_filename(name, max_length)` from src/core/organizer.py.

The call `unicodedata.normalize("NFKD", name)` is an external library
function; it is kept abstract as the parameter `nfkd` (theorems quantify over
it, so they hold for the real NFKD in particular).  The remaining steps follow
the source line by line: remove invalid filesystem characters, replace `&`
with `and`, collapse whitespace and trim, collapse dash runs, strip leading
and trailing dots and spaces, truncate to `max_length` (re-stripping a
dangling dot or space), and fall back to `"Unknown"` when empty.
-/
def sanitize_filename (nfkd : List Char → List Char) (name : List Char)
    (max_length : Nat) : List Char :=
  let n1 := nfkd name
  let n2 := n1.filter (fun c => !isInvalidChar c)
  let n3 := replaceAmp n2
  let n4 := pyStrip pyIsSpace (squeezeChar ' ' (n3.map spaceify))
  let n5 := squeezeChar '-' n4
  let n6 := pyStrip dotSpace n5
  let n7 := if max_length < n6.length then rstrip dotSpace (n6.take max_length) else n6
  if n7 = [] then "Unknown".data else n7

/-- `sanitize_dirname(name, max_length=80)` from src/core/organizer.py. -/
def sanitize_dirname (nfkd : List Char → List Char) (name : List Char)
    (max_length : Nat) : List Char :=
  sanitize_filename nfkd name max_length

/-! ### Organizer: path construction and the collision loop -/

/-- Decimal digits of `n` in order, `[]` for zero; `fuel` bounds the
recursion depth (`fuel ≥ n` suffices). -/
def natStrAux : Nat → Nat → List Char
  | _, 0 => []
  | 0, _ + 1 => []
  | fuel + 1, n + 1 =>
    natStrAux fuel ((n + 1) / 10) ++ [Char.ofNat (48 + (n + 1) % 10)]

/-- Python `str(n)` for a natural number: decimal digits, no sign, `"0"` for
zero. -/
def natStr (n : Nat) : List Char :=
  if n = 0 then ['0'] else natStrAux n n

/-- Read a decimal digit string back into a number (left inverse of `natStr`,
used to prove that distinct counters render distinctly). -/
def natParse (l : List Char) : Nat :=
  l.foldl (fun acc c => acc * 10 + (c.toNat - 48)) 0

/-- Python slicing `s[:k]` for an arbitrary (possibly negative) integer
bound. -/
def pySliceTo (l : List Char) (k : Int) : List Char :=
  if k < 0 then l.take (((l.length : Int) + k).toNat) else l.take k.toNat

/-- The first stem tried by `organize_track`:
`filename = f"{artist} - {title}"` truncated to
`max_name_len = max_filename_length - len(ext)` with a trailing
`rstrip(". ")` when truncation applies. -/
def initial_stem (artist title : List Char) (max_name_len : Int) : List Char :=
  let filename := artist ++ " - ".data ++ title
  if max_name_len < (filename.length : Int) then
    rstrip dotSpace (pySliceTo filename max_name_len)
  else filename

/-- The stem tried in the collision loop of `organize_track`:
`stem = f"{artist} - {title} ({counter})"`, truncated to `max_name_len`
with a trailing `rstrip(". ")` when it is too long. -/
def counter_stem (artist title : List Char) (max_name_len : Int)
    (counter : Nat) : List Char :=
  let stem := artist ++ " - ".data ++ title ++ " (".data ++ natStr counter ++ ")".data
  if max_name_len < (stem.length : Int) then
    rstrip dotSpace (pySliceTo stem max_name_len)
  else stem

/-- The `while target_path.exists()` loop of `organize_track`, with the set of
existing paths made explicit and a fuel bound on the number of iterations
(the source loop has no bound; `none` means the loop is still running after
`fuel` collisions). -/
def organize_loop (existing : List (List Char)) (artist title ext : List Char)
    (max_name_len : Int) : Nat → List Char → Nat → Option (List Char)
  | 0, target, _ => if target ∈ existing then none else some target
  | fuel + 1, target, counter =>
    if target ∈ existing then
      organize_loop existing artist title ext max_name_len fuel
        (counter_stem artist title max_name_len counter ++ ext) (counter + 1)
    else some target

/-- The target-path resolution of `organize_track`: start from
`artist - title` + ext and run the collision loop with the counter starting
at 1. -/
def organize_target (existing : List (List Char)) (artist title ext : List Char)
    (max_name_len : Int) (fuel : Nat) : Option (List Char) :=
  organize_loop existing artist title ext max_name_len fuel
    (initial_stem artist title max_name_len ++ ext) 1

/-! ### Sync ledger (src/core/sync_state.py) -/

/-- One entry of the `tracks` map of the persisted sync state. -/
structure TrackRecord where
  filepath : String
  title : String
  artist : String
  downloaded_at : String
deriving DecidableEq, Repr

/-- One entry of the `playlists` map of the persisted sync state. -/
structure PlaylistRecord where
  name : String
  track_count : Nat
  last_sync : String
deriving DecidableEq, Repr

/-- The in-memory `_state` dict of `SyncState`.  The Python dicts keyed by
video id preserve insertion order, so they are modelled as association
lists. -/
structure LedgerState where
  version : Nat
  last_sync : Option String
  tracks : List (String × TrackRecord)
  playlists : List (String × PlaylistRecord)
deriving DecidableEq, Repr

/-- The fresh state returned by `SyncState._load` when the backing file is
missing or malformed. -/
def fresh_state : LedgerState :=
  { version := 1, last_sync := none, tracks := [], playlists := [] }

/-- The backing document of the ledger as seen by `SyncState._load`: absent,
present but unparseable, or a well-formed state. -/
inductive StateDoc where
  | missing
  | malformed
  | valid (s : LedgerState)

/-- `SyncState._load`: the loaded state paired with whether a warning was
logged (the `except (json.JSONDecodeError, OSError)` branch). -/
def load_state : StateDoc → LedgerState × Bool
  | .missing => (fresh_state, false)
  | .malformed => (fresh_state, true)
  | .valid s => (s, false)

/-- `d.get(key, default)` on a string-valued Python dict. -/
def dictGet (d : List (String × String)) (k dflt : String) : String :=
  match d.find? (fun p => p.1 == k) with
  | some p => p.2
  | none => dflt

/-- `SyncState.is_downloaded`. -/
def is_downloaded (s : LedgerState) (video_id : String) : Bool :=
  s.tracks.any (fun p => p.1 == video_id)

/-- Assignment `d[k] = v` on an ordered dict: replace in place when the key is
present, append otherwise. -/
def dictSetTrack (d : List (String × TrackRecord)) (k : String)
    (v : TrackRecord) : List (String × TrackRecord) :=
  if d.any (fun p => p.1 == k) then
    d.map (fun p => if p.1 == k then (k, v) else p)
  else d ++ [(k, v)]

/-- `SyncState.mark_downloaded` (`now` stands for
`datetime.now(UTC).isoformat()`). -/
def mark_downloaded (s : LedgerState) (video_id filepath : String)
    (metadata : List (String × String)) (now : String) : LedgerState :=
  { s with tracks := (dictSetTrack s.tracks video_id
      ⟨filepath, dictGet metadata "title" "", dictGet metadata "artist" "", now⟩) }

/-- `SyncState.remove_track`: `del tracks[video_id]` when present, no-op
otherwise. -/
def remove_track (s : LedgerState) (video_id : String) : LedgerState :=
  { s with tracks := s.tracks.filter (fun p => !(p.1 == video_id)) }

/-- `SyncState.get_new_tracks`. -/
def get_new_tracks (s : LedgerState)
    (tracks : List (List (String × String))) : List (List (String × String)) :=
  tracks.filter (fun t => !is_downloaded s (dictGet t "video_id" ""))

/-- `SyncState.get_orphaned_tracks`: entries of the `tracks` map whose id is
not in `current_video_ids`, in map order (the Python code re-packs each entry
as `{"video_id": vid, **info}`; the pair `(vid, info)` carries the same
data). -/
def get_orphaned_tracks (s : LedgerState) (current_video_ids : List String) :
    List (String × TrackRecord) :=
  s.tracks.filter (fun p => !(current_video_ids.contains p.1))

/-! ### Download engine (src/core/download.py) -/

/-- `MAX_RETRIES = 3`. -/
def MAX_RETRIES : Nat := 3

/-- `RETRY_BACKOFF_BASE = 2` (seconds: 2, 4, 8). -/
def RETRY_BACKOFF_BASE : Nat := 2

/-- The substring patterns of `_is_retryable_error`. -/
def retryable_patterns : List (List Char) :=
  ["403".data, "429".data, "http error".data, "connection".data,
   "timeout".data, "network".data, "temporary".data, "unavailable".data,
   "rate limit".data]

/-- `str(error).lower()`; the patterns are ASCII, `Char.toLower` matches
Python for them. -/
def lowerList (l : List Char) : List Char := l.map Char.toLower

/-- Python's `pattern in s`: `p` occurs as a contiguous substring of `l`. -/
def hasSubstr (p : List Char) : List Char → Bool
  | [] => p.isEmpty
  | c :: rest => p.isPrefixOf (c :: rest) || hasSubstr p rest

/-- `_is_retryable_error`: some pattern occurs in the lowercased message. -/
def is_retryable_error (error : List Char) : Bool :=
  retryable_patterns.any (fun p => hasSubstr p (lowerList error))

/-- Outcome of one download attempt, as seen by the body of the retry loop of
`download_track` (the network, yt-dlp and the filesystem probes are external;
they are modelled by an oracle `Nat → AttemptOutcome` giving each attempt's
outcome). -/
inductive AttemptOutcome where
  /-- `extract_info` succeeded and the produced file was located (by the
  known-extension probe or the stem-matching scan). -/
  | ok (path : String)
  /-- `extract_info` returned `None`: `DownloadError("No info extracted ...")`
  is raised inside the `try`. -/
  | noInfo
  /-- the download completed but no file was found:
  `DownloadError("Download completed but file not found ...")`. -/
  | fileNotFound
  /-- any other exception, carrying `str(e)`. -/
  | err (msg : List Char)
deriving DecidableEq

/-- Terminal outcome of `download_track`. -/
inductive DlOutcome where
  /-- the resolved path is returned. -/
  | success (path : String)
  /-- the final `raise DownloadError(f"Failed to download ... after ...
  attempts: {last_error}")` after the loop ends or `break`s. -/
  | failed (last_error : Option (List Char))
  /-- a `DownloadError` raised inside an attempt propagates unchanged
  (`except DownloadError: raise`). -/
  | immediate (msg : String)
deriving DecidableEq

/-- Result of `download_track` together with the backoff sleeps performed, in
order (`time.sleep(wait_time)` calls). -/
structure DlRun where
  outcome : DlOutcome
  waits : List Nat
deriving DecidableEq

/-- The `for attempt in range(max_retries + 1)` loop of `download_track`.
`remaining` is the number of loop iterations left, `attempt` the current
0-based index, `last_error` and `waits` the accumulated state. -/
def download_track_go (video_id : String) (att : Nat → AttemptOutcome)
    (max_retries : Nat) :
    Nat → Nat → Option (List Char) → List Nat → DlRun
  | 0, _, last_error, waits => ⟨.failed last_error, waits⟩
  | remaining + 1, attempt, _last_error, waits =>
    match att attempt with
    | .ok path => ⟨.success path, waits⟩
    | .noInfo => ⟨.immediate ("No info extracted for " ++ video_id), waits⟩
    | .fileNotFound =>
      ⟨.immediate ("Download completed but file not found for " ++ video_id), waits⟩
    | .err e =>
      if attempt < max_retries ∧ is_retryable_error e = true then
        download_track_go video_id att max_retries remaining (attempt + 1)
          (some e) (waits ++ [RETRY_BACKOFF_BASE ^ (attempt + 1)])
      else ⟨.failed (some e), waits⟩

/-- `download_track(video_id, ..., max_retries)` with the per-attempt outcomes
given by the oracle `att`.  (The unused `last_error` in the fuel-0 case is the
value the final `raise` would report if the `for` loop ever ran off the end;
with the code's `break` discipline the loop always ends through one of the
other cases.) -/
def download_track (video_id : String) (att : Nat → AttemptOutcome)
    (max_retries : Nat) : DlRun :=
  download_track_go video_id att max_retries (max_retries + 1) 0 none []

/-- `download_track` as seen by a caller: either the path, or the message of
the raised `DownloadError`. -/
def download_track_result (video_id : String) (att : Nat → AttemptOutcome) :
    Except (List Char) String :=
  match download_track video_id att MAX_RETRIES with
  | ⟨.success p, _⟩ => .ok p
  | ⟨.failed le, _⟩ =>
    .error ("Failed to download ".data ++ video_id.data ++
      " after 4 attempts: ".data ++ (match le with | some m => m | none => "None".data))
  | ⟨.immediate m, _⟩ => .error m.data

/-- One per-dispatch result row of `download_tracks_parallel`
(`{"track": ..., "filepath": ..., "error": ...}`). -/
structure DownloadResult where
  track : List (String × String)
  filepath : Option String
  error : Option (List Char)
deriving DecidableEq

/-- `_download_one` inside `download_tracks_parallel`: short-circuit a missing
`video_id`, otherwise run `download_track` and catch `DownloadError` into the
`error` field. -/
def download_one (att : String → Nat → AttemptOutcome)
    (track : List (String × String)) : DownloadResult :=
  if dictGet track "video_id" "" = "" then
    ⟨track, none, some "Missing video_id".data⟩
  else
    match download_track_result (dictGet track "video_id" "")
        (att (dictGet track "video_id" "")) with
    | .ok filepath => ⟨track, some filepath, none⟩
    | .error e => ⟨track, none, some e⟩

/-- `download_tracks_parallel`: one `_download_one` task per input track.  The
worker pool collects results in completion order; the collected list is a
permutation of this submission-order list, which is what the per-item claims
are about. -/
def download_tracks_parallel (att : String → Nat → AttemptOutcome)
    (tracks : List (List (String × String))) : List DownloadResult :=
  tracks.map (download_one att)

/-! ### The per-item sync step (src/cli/commands/sync.py) -/

/-- `_download_and_process`: download (a raised `DownloadError` propagates to
the caller), tag (a `MetadataError` is logged and ignored), organize (an
`OrganizationError` is caught and `final_path` falls back to the raw
downloaded `filepath`), then `sync_state.mark_downloaded`.  The download, tag
and organize outcomes are external effects, passed as parameters. -/
def download_and_process (dl : Except (List Char) String)
    (tag_error : Option String) (org : Except String String)
    (video_id : String) (track : List (String × String)) (now : String)
    (state : LedgerState) : Except (List Char) (Option String × LedgerState) :=
  match dl with
  | .error e => .error e
  | .ok filepath =>
    let _ := tag_error
    let final_path :=
      match org with
      | .ok p => p
      | .error _ => filepath
    .ok (some final_path, mark_downloaded state video_id final_path track now)

/-! ### Theorems -/

/-- C6: loading the ledger never raises: a missing backing document yields the
fresh ledger (version 1, empty track and playlist maps, no global sync
timestamp) with no warning; a malformed document yields the same fresh ledger
and a logged warning. -/
theorem load_state_fresh :
    load_state .missing = (fresh_state, false)
    ∧ load_state .malformed = (fresh_state, true)
    ∧ fresh_state.version = 1
    ∧ fresh_state.last_sync = none
    ∧ fresh_state.tracks = []
    ∧ fresh_state.playlists = [] :=
  ⟨rfl, rfl, rfl, rfl, rfl, rfl⟩

/-- C5: `is_downloaded` is true immediately after `mark_downloaded` and false
immediately after `remove_track`; `remove_track` on an absent id is a
no-op. -/
theorem ledger_record_remove (s : LedgerState) (video_id filepath : String)
    (metadata : List (String × String)) (now : String) :
    is_downloaded (mark_downloaded s video_id filepath metadata now) video_id = true
    ∧ is_downloaded (remove_track s video_id) video_id = false
    ∧ (is_downloaded s video_id = false → remove_track s video_id = s) := by
  refine ⟨?_, ?_, ?_⟩
  · simp only [is_downloaded, mark_downloaded, dictSetTrack]
    by_cases h : s.tracks.any (fun p => p.1 == video_id)
    · rw [if_pos h]
      rw [List.any_eq_true] at h ⊢
      obtain ⟨p, hp, hpk⟩ := h
      exact ⟨(video_id, _), List.mem_map.mpr ⟨p, hp, by rw [if_pos hpk]⟩, by simp⟩
    · rw [if_neg h]
      simp
  · simp only [is_downloaded, remove_track]
    rw [List.any_eq_false]
    intro x hx
    have hx2 := (List.mem_filter.mp hx).2
    simp only [Bool.not_eq_eq_eq_not, Bool.not_true] at hx2
    simp [hx2]
  · intro h
    have hall : ∀ p ∈ s.tracks, (!(p.1 == video_id)) = true := by
      intro p hp
      rw [is_downloaded, List.any_eq_false] at h
      have hh := h p hp
      simpa using hh
    cases s with
    | mk v ls tr pl =>
      simp only [remove_track, LedgerState.mk.injEq]
      exact ⟨trivial, trivial, List.filter_eq_self.mpr hall, trivial⟩

/-- C5 witness: record then check, remove then check, and removal of an
absent id is a no-op, at concrete inputs. -/
theorem ledger_record_remove_witness :
    is_downloaded
      (mark_downloaded fresh_state "v1" "/m/Pop/A/A - T.mp3"
        [("title", "T"), ("artist", "A")] "2024-01-01") "v1" = true
    ∧ is_downloaded (remove_track fresh_state "v1") "v1" = false
    ∧ remove_track fresh_state "v1" = fresh_state :=
  ⟨(ledger_record_remove fresh_state "v1" "/m/Pop/A/A - T.mp3"
      [("title", "T"), ("artist", "A")] "2024-01-01").1,
   (ledger_record_remove fresh_state "v1" "/m/Pop/A/A - T.mp3"
      [("title", "T"), ("artist", "A")] "2024-01-01").2.1,
   (ledger_record_remove fresh_state "v1" "/m/Pop/A/A - T.mp3"
      [("title", "T"), ("artist", "A")] "2024-01-01").2.2 (by decide)⟩

/-- C7: `get_new_tracks` returns exactly the sublist of the input whose
identifier is not yet recorded, in input order (a filter, hence a sublist of
the input). -/
theorem filter_new_spec (s : LedgerState)
    (tracks : List (List (String × String))) :
    (get_new_tracks s tracks).Sublist tracks
    ∧ ∀ t, t ∈ get_new_tracks s tracks ↔
        t ∈ tracks ∧ is_downloaded s (dictGet t "video_id" "") = false := by
  refine ⟨List.filter_sublist _, fun t => ?_⟩
  simp [get_new_tracks, List.mem_filter]

/-- C8: `get_orphaned_tracks` returns exactly the ledger entries whose id is
not among the current ids, in ledger order; with records for A, B, C and
current ids A, C it returns exactly the record for B. -/
theorem orphaned_tracks_spec (s : LedgerState) (current : List String) :
    (get_orphaned_tracks s current).Sublist s.tracks
    ∧ (∀ vid info, (vid, info) ∈ get_orphaned_tracks s current ↔
        (vid, info) ∈ s.tracks ∧ current.contains vid = false)
    ∧ get_orphaned_tracks
        { version := 1, last_sync := none,
          tracks := [("A", ⟨"pa", "ta", "aa", "da"⟩),
                     ("B", ⟨"pb", "tb", "ab", "db"⟩),
                     ("C", ⟨"pc", "tc", "ac", "dc"⟩)],
          playlists := [] }
        ["A", "C"]
      = [("B", ⟨"pb", "tb", "ab", "db"⟩)] := by
  refine ⟨List.filter_sublist _, fun vid info => ?_, by decide⟩
  simp [get_orphaned_tracks, List.mem_filter]

/-- C1 (code bug): when the organize step fails with an `OrganizationError`,
`_download_and_process` catches it, falls back to the raw temp-directory
path, and still calls `mark_downloaded`: the acquisition record is written
even though the file was never moved into its organized place (and the
recorded temp file is then deleted by the end-of-run `cleanup_temp_dir`
sweep). -/
theorem organize_error_still_records :
    download_and_process (.ok "/downloads/.tmp/v1.mp3") none
        (.error "Failed to move: permission denied") "v1"
        [("title", "Song A"), ("artist", "Artist A")] "2024-01-01T00:00:00+00:00"
        fresh_state
      = .ok (some "/downloads/.tmp/v1.mp3",
          { version := 1, last_sync := none,
            tracks := [("v1", ⟨"/downloads/.tmp/v1.mp3", "Song A", "Artist A",
              "2024-01-01T00:00:00+00:00"⟩)],
            playlists := [] })
    ∧ is_downloaded
        (mark_downloaded fresh_state "v1" "/downloads/.tmp/v1.mp3"
          [("title", "Song A"), ("artist", "Artist A")] "2024-01-01T00:00:00+00:00")
        "v1" = true := by
  exact ⟨rfl, by decide⟩

/-- C2: a failure is retried iff its lowercased message contains one of the
network-class patterns; a retryable failure with attempts remaining incurs
exactly one backoff wait of `2^attempt` before the retry (so a 403 on
attempt 1 followed by success on attempt 2 waits exactly once, 2 time
units); a permanent failure fails immediately with no wait; exhausting the
retries performs the waits 2, 4, 8 and then fails with no further wait. -/
theorem retry_policy (video_id : String) (att : Nat → AttemptOutcome)
    (R : Nat) (e : List Char) (p : String) :
    (is_retryable_error e = true ↔
      ∃ q ∈ retryable_patterns, hasSubstr q (lowerList e) = true)
    ∧ (att 0 = .err e → is_retryable_error e = true → 1 ≤ R → att 1 = .ok p →
        download_track video_id att R = ⟨.success p, [2]⟩)
    ∧ (att 0 = .err e → is_retryable_error e = false →
        download_track video_id att R = ⟨.failed (some e), []⟩)
    ∧ ((∀ i, i ≤ 3 → ∃ m, att i = .err m ∧ is_retryable_error m = true) →
        ∃ m, att 3 = .err m ∧
          download_track video_id att 3 = ⟨.failed (some m), [2, 4, 8]⟩) := by
  refine ⟨?_, ?_, ?_, ?_⟩
  · simp [is_retryable_error, List.any_eq_true]
  · intro h0 hr hR h1
    cases R with
    | zero => exact absurd hR (by omega)
    | succ r =>
      simp [download_track, download_track_go, h0, h1, hr, RETRY_BACKOFF_BASE]
  · intro h0 hnr
    simp [download_track, download_track_go, h0, hnr]
  · intro h
    obtain ⟨m0, h0, hr0⟩ := h 0 (by omega)
    obtain ⟨m1, h1, hr1⟩ := h 1 (by omega)
    obtain ⟨m2, h2, hr2⟩ := h 2 (by omega)
    obtain ⟨m3, h3, hr3⟩ := h 3 (by omega)
    refine ⟨m3, h3, ?_⟩
    simp [download_track, download_track_go, h0, hr0, h1, hr1, h2, hr2, h3,
      RETRY_BACKOFF_BASE]

/-- C2 witness: a 403 on attempt 1 then success waits exactly once (2 time
units) and succeeds; a "video not found" failure never waits and fails
immediately. -/
theorem retry_policy_witness :
    download_track "v1"
      (fun n => if n = 0 then .err "http error 403: forbidden".data else .ok "t.mp3") 3
      = ⟨.success "t.mp3", [2]⟩
    ∧ download_track "v1" (fun _ => .err "video not found".data) 3
      = ⟨.failed (some "video not found".data), []⟩ :=
  ⟨(retry_policy "v1"
      (fun n => if n = 0 then .err "http error 403: forbidden".data else .ok "t.mp3")
      3 "http error 403: forbidden".data "t.mp3").2.1 rfl (by decide) (by decide) rfl,
   (retry_policy "v1" (fun _ => .err "video not found".data)
      3 "video not found".data "x").2.2.1 rfl (by decide)⟩

/-- C10: a `DownloadError` raised inside an attempt — no info extracted, or
the produced file cannot be located — propagates immediately: no
retryable/permanent classification, no backoff wait, for any remaining retry
budget. -/
theorem download_error_bypasses_retry (video_id : String)
    (att : Nat → AttemptOutcome) (R : Nat) :
    (att 0 = .noInfo →
      download_track video_id att R =
        ⟨.immediate ("No info extracted for " ++ video_id), []⟩)
    ∧ (att 0 = .fileNotFound →
      download_track video_id att R =
        ⟨.immediate ("Download completed but file not found for " ++ video_id), []⟩) := by
  constructor <;> intro h <;> simp [download_track, download_track_go, h]

/-- C10 witness: both in-attempt `DownloadError` cases at a concrete oracle
with the full retry budget remaining. -/
theorem download_error_bypasses_retry_witness :
    download_track "v1" (fun _ => .noInfo) 3
      = ⟨.immediate ("No info extracted for " ++ "v1"), []⟩
    ∧ download_track "v1" (fun _ => .fileNotFound) 3
      = ⟨.immediate ("Download completed but file not found for " ++ "v1"), []⟩ :=
  ⟨(download_error_bypasses_retry "v1" (fun _ => .noInfo) 3).1 rfl,
   (download_error_bypasses_retry "v1" (fun _ => .fileNotFound) 3).2 rfl⟩

/-- The originating track of every dispatch result is the submitted track. -/
theorem download_one_track (att : String → Nat → AttemptOutcome)
    (track : List (String × String)) :
    (download_one att track).track = track := by
  unfold download_one
  split
  · rfl
  · split <;> rfl

/-- C9: parallel dispatch yields exactly one result per input item, in
submission order (the collector receives a permutation of this list), every
result carries exactly one of path/error, and an item with a missing
`video_id` yields an immediate failure result. -/
theorem parallel_results_spec (att : String → Nat → AttemptOutcome)
    (tracks : List (List (String × String))) :
    (download_tracks_parallel att tracks).length = tracks.length
    ∧ (download_tracks_parallel att tracks).map DownloadResult.track = tracks
    ∧ (∀ r ∈ download_tracks_parallel att tracks,
        (r.filepath.isSome = true ∧ r.error = none)
        ∨ (r.filepath = none ∧ r.error.isSome = true))
    ∧ (∀ r ∈ download_tracks_parallel att tracks,
        dictGet r.track "video_id" "" = "" →
          r.filepath = none ∧ r.error = some "Missing video_id".data) := by
  refine ⟨List.length_map _ _, ?_, ?_, ?_⟩
  · rw [download_tracks_parallel, List.map_map]
    have : (DownloadResult.track ∘ download_one att) = id := by
      funext t
      exact download_one_track att t
    rw [this, List.map_id]
  · intro r hr
    obtain ⟨t, ht, rfl⟩ := List.mem_map.mp hr
    unfold download_one
    split
    · right; exact ⟨rfl, rfl⟩
    · split
      · left; exact ⟨rfl, rfl⟩
      · right; exact ⟨rfl, rfl⟩
  · intro r hr hvid
    obtain ⟨t, ht, rfl⟩ := List.mem_map.mp hr
    rw [download_one_track] at hvid
    unfold download_one
    rw [if_pos hvid]
    exact ⟨rfl, rfl⟩

/-- Characters of a right-stripped list come from the list. -/
theorem mem_of_rstrip {p : Char → Bool} {l : List Char} {c : Char}
    (h : c ∈ rstrip p l) : c ∈ l := by
  rw [rstrip] at h
  have h1 := List.mem_reverse.mp h
  exact List.mem_reverse.mp ((List.dropWhile_sublist _).mem h1)

/-- Characters of a left-stripped list come from the list. -/
theorem mem_of_lstrip {p : Char → Bool} {l : List Char} {c : Char}
    (h : c ∈ lstrip p l) : c ∈ l :=
  (List.dropWhile_sublist _).mem h

/-- Characters of a stripped list come from the list. -/
theorem mem_of_pyStrip {p : Char → Bool} {l : List Char} {c : Char}
    (h : c ∈ pyStrip p l) : c ∈ l :=
  mem_of_lstrip (mem_of_rstrip h)

/-- Right-stripping never lengthens. -/
theorem rstrip_length_le (p : Char → Bool) (l : List Char) :
    (rstrip p l).length ≤ l.length := by
  rw [rstrip, List.length_reverse]
  calc (l.reverse.dropWhile p).length
      ≤ l.reverse.length := (List.dropWhile_sublist _).length_le
    _ = l.length := List.length_reverse _

/-- Characters of a squeezed list come from the list. -/
theorem mem_of_squeezeChar {t : Char} {c : Char} :
    ∀ {l : List Char}, c ∈ squeezeChar t l → c ∈ l
  | [], h => by simp [squeezeChar] at h
  | [a], h => by simpa [squeezeChar] using h
  | a :: b :: rest, h => by
    rw [squeezeChar] at h
    by_cases hab : (a == t && b == t) = true
    · rw [if_pos hab] at h
      exact List.mem_cons_of_mem a (mem_of_squeezeChar h)
    · rw [if_neg hab] at h
      rcases List.mem_cons.mp h with h1 | h1
      · exact h1 ▸ List.mem_cons_self a _
      · exact List.mem_cons_of_mem a (mem_of_squeezeChar h1)

/-- Characters after the `&`-replacement come from the input or from
`"and"`. -/
theorem mem_of_replaceAmp {l : List Char} {c : Char}
    (h : c ∈ replaceAmp l) : c ∈ l ∨ c ∈ "and".data := by
  rw [replaceAmp] at h
  obtain ⟨l', hl', hc⟩ := List.mem_flatten.mp h
  obtain ⟨a, ha, rfl⟩ := List.mem_map.mp hl'
  by_cases hamp : (a == '&') = true
  · rw [if_pos hamp] at hc
    exact Or.inr hc
  · rw [if_neg hamp] at hc
    rcases List.mem_singleton.mp hc with rfl
    exact Or.inl ha

/-- The sanitizer pipeline written as a plain composition (the `let` chain of
the source, zeta-reduced). -/
theorem sanitize_filename_eq (nfkd : List Char → List Char) (s : List Char)
    (N : Nat) :
    sanitize_filename nfkd s N =
      (fun n7 => if n7 = [] then "Unknown".data else n7)
        ((fun n6 => if N < n6.length then rstrip dotSpace (n6.take N) else n6)
          (pyStrip dotSpace (squeezeChar '-' (pyStrip pyIsSpace (squeezeChar ' '
            ((replaceAmp ((nfkd s).filter (fun c => !isInvalidChar c))).map
              spaceify)))))) := rfl

/-- C3 (amended: for a maximum length of at least 7, the length of the
`"Unknown"` placeholder): the sanitized result has length at most `N`,
contains none of the forbidden filesystem characters and no control
characters, and is never empty. -/
theorem sanitize_spec (nfkd : List Char → List Char) (s : List Char) (N : Nat)
    (h500 : s.length ≤ 500) (hN : 7 ≤ N) :
    (sanitize_filename nfkd s N).length ≤ N
    ∧ (∀ c ∈ sanitize_filename nfkd s N, isInvalidChar c = false)
    ∧ sanitize_filename nfkd s N ≠ [] := by
  set m := pyStrip dotSpace (squeezeChar '-' (pyStrip pyIsSpace (squeezeChar ' '
    ((replaceAmp ((nfkd s).filter (fun c => !isInvalidChar c))).map
      spaceify)))) with hm
  have e : sanitize_filename nfkd s N =
      if (if N < m.length then rstrip dotSpace (m.take N) else m) = [] then
        "Unknown".data
      else (if N < m.length then rstrip dotSpace (m.take N) else m) := rfl
  rw [e]
  have hclean : ∀ c ∈ m, isInvalidChar c = false := by
    intro c hc
    have hc1 := mem_of_pyStrip (hm ▸ hc)
    have hc2 := mem_of_squeezeChar hc1
    have hc3 := mem_of_pyStrip hc2
    have hc4 := mem_of_squeezeChar hc3
    obtain ⟨a, ha, rfl⟩ := List.mem_map.mp hc4
    rcases mem_of_replaceAmp ha with h1 | h1
    · have h2 := (List.mem_filter.mp h1).2
      rw [spaceify]
      split
      · decide
      · simpa using h2
    · rw [spaceify]
      split
      · decide
      · fin_cases h1 <;> decide
  set n7 := if N < m.length then rstrip dotSpace (m.take N) else m with hn7
  have h7len : n7.length ≤ N := by
    rw [hn7]
    split
    · calc (rstrip dotSpace (m.take N)).length
          ≤ (m.take N).length := rstrip_length_le _ _
        _ ≤ N := by simp
    · omega
  have h7clean : ∀ c ∈ n7, isInvalidChar c = false := by
    intro c hc
    rw [hn7] at hc
    split at hc
    · exact hclean c ((List.take_sublist _ _).mem (mem_of_rstrip hc))
    · exact hclean c hc
  by_cases hemp : n7 = []
  · rw [if_pos hemp]
    refine ⟨by simpa using hN, by decide, by decide⟩
  · rw [if_neg hemp]
    exact ⟨h7len, h7clean, hemp⟩

/-- C3 witness: the bounds at a concrete string needing sanitization. -/
theorem sanitize_spec_witness :
    (sanitize_filename (fun l => l) "My<Song>: a/b & c  -- x".data 120).length ≤ 120
    ∧ (∀ c ∈ sanitize_filename (fun l => l) "My<Song>: a/b & c  -- x".data 120,
        isInvalidChar c = false)
    ∧ sanitize_filename (fun l => l) "My<Song>: a/b & c  -- x".data 120 ≠ [] :=
  sanitize_spec (fun l => l) "My<Song>: a/b & c  -- x".data 120
    (by decide) (by decide)

/-- C3 counterexample: the claim as stated fails for small maximum lengths:
the empty input (its own NFKD normalization) sanitizes to the fallback
`"Unknown"`, whose 7 characters exceed a maximum length of 1. -/
theorem sanitize_length_claim_false :
    ¬ ((sanitize_filename (fun l => l) [] 1).length ≤ 1) := by decide

/-- A decimal digit character remembers its code point. -/
theorem digit_char_toNat {d : Nat} (hd : d < 10) :
    (Char.ofNat (48 + d)).toNat = 48 + d := by
  interval_cases d <;> decide

/-- Folding the digit-reading step over `natStrAux fuel n` recovers `n` on
top of the accumulator. -/
theorem natStrAux_foldl (fuel : Nat) :
    ∀ n acc, n ≤ fuel →
      List.foldl (fun acc c => acc * 10 + (c.toNat - 48)) acc (natStrAux fuel n)
        = acc * 10 ^ (natStrAux fuel n).length + n := by
  induction fuel with
  | zero =>
    intro n acc hn
    interval_cases n
    simp [natStrAux]
  | succ f ih =>
    intro n acc hn
    cases n with
    | zero => simp [natStrAux]
    | succ m =>
      rw [natStrAux]
      rw [List.foldl_append]
      have hdiv : (m + 1) / 10 ≤ f := by
        have := Nat.div_lt_self (Nat.succ_pos m) (by norm_num : 1 < 10)
        omega
      rw [ih _ acc hdiv]
      simp only [List.foldl_cons, List.foldl_nil, List.length_append,
        List.length_singleton]
      rw [digit_char_toNat (Nat.mod_lt _ (by norm_num))]
      rw [Nat.add_sub_cancel_left]
      have hm : (m + 1) / 10 * 10 + (m + 1) % 10 = m + 1 := by
        have := Nat.div_add_mod (m + 1) 10
        omega
      calc (acc * 10 ^ (natStrAux f ((m + 1) / 10)).length + (m + 1) / 10) * 10
            + (m + 1) % 10
          = acc * (10 ^ (natStrAux f ((m + 1) / 10)).length * 10)
            + ((m + 1) / 10 * 10 + (m + 1) % 10) := by ring
        _ = acc * 10 ^ ((natStrAux f ((m + 1) / 10)).length + 1) + (m + 1) := by
            rw [hm, pow_succ]

/-- `natParse` reads back `natStr`. -/
theorem natParse_natStr (n : Nat) : natParse (natStr n) = n := by
  rw [natStr]
  by_cases h : n = 0
  · rw [if_pos h, h]; decide
  · rw [if_neg h]
    have hfold := natStrAux_foldl n n 0 le_rfl
    rw [natParse, hfold]
    simp

/-- Distinct counters render as distinct digit strings. -/
theorem natStr_injective : Function.Injective natStr := by
  intro a b h
  have h2 := congrArg natParse h
  rwa [natParse_natStr, natParse_natStr] at h2

/-- The rendering of a counter is never empty. -/
theorem natStr_ne_nil (n : Nat) : natStr n ≠ [] := by
  rw [natStr]
  by_cases h : n = 0
  · rw [if_pos h]; decide
  · rw [if_neg h]
    cases n with
    | zero => exact absurd rfl h
    | succ m =>
      rw [natStrAux]
      simp

/-- When the counter-bearing stem fits the length budget, no truncation
happens and the counter stays part of the stem. -/
theorem counter_stem_of_fits {artist title : List Char} {mnl : Int} {n : Nat}
    (h : ((artist ++ " - ".data ++ title ++ " (".data ++ natStr n ++ ")".data).length : Int)
      ≤ mnl) :
    counter_stem artist title mnl n
      = artist ++ " - ".data ++ title ++ " (".data ++ natStr n ++ ")".data := by
  have e : counter_stem artist title mnl n =
      if mnl < ((artist ++ " - ".data ++ title ++ " (".data ++ natStr n
          ++ ")".data).length : Int) then
        rstrip dotSpace (pySliceTo (artist ++ " - ".data ++ title ++ " (".data
          ++ natStr n ++ ")".data) mnl)
      else artist ++ " - ".data ++ title ++ " (".data ++ natStr n ++ ")".data := rfl
  rw [e, if_neg (not_lt.mpr h)]

/-- A path delivered by the collision loop does not yet exist. -/
theorem organize_loop_not_mem {existing : List (List Char)}
    {artist title ext : List Char} {mnl : Int} :
    ∀ {fuel c : Nat} {target u : List Char},
      organize_loop existing artist title ext mnl fuel target c = some u →
      u ∉ existing := by
  intro fuel
  induction fuel with
  | zero =>
    intro c target u h
    rw [organize_loop] at h
    by_cases hm : target ∈ existing
    · rw [if_pos hm] at h
      exact absurd h (by simp)
    · rw [if_neg hm] at h
      injection h with h1
      subst h1
      exact hm
  | succ f ih =>
    intro c target u h
    rw [organize_loop] at h
    by_cases hm : target ∈ existing
    · rw [if_pos hm] at h
      exact ih h
    · rw [if_neg hm] at h
      injection h with h1
      subst h1
      exact hm

/-- A path delivered by the collision loop is the starting target or carries
a counter from the range the loop walked. -/
theorem organize_loop_shape {existing : List (List Char)}
    {artist title ext : List Char} {mnl : Int} :
    ∀ {fuel c : Nat} {target u : List Char},
      organize_loop existing artist title ext mnl fuel target c = some u →
      u = target ∨
        ∃ n, c ≤ n ∧ n < c + fuel ∧ u = counter_stem artist title mnl n ++ ext := by
  intro fuel
  induction fuel with
  | zero =>
    intro c target u h
    rw [organize_loop] at h
    by_cases hm : target ∈ existing
    · rw [if_pos hm] at h
      exact absurd h (by simp)
    · rw [if_neg hm] at h
      injection h with h1
      exact Or.inl h1.symm
  | succ f ih =>
    intro c target u h
    rw [organize_loop] at h
    by_cases hm : target ∈ existing
    · rw [if_pos hm] at h
      rcases ih h with h1 | ⟨n, hn1, hn2, hn3⟩
      · exact Or.inr ⟨c, le_refl c, by omega, h1⟩
      · exact Or.inr ⟨n, by omega, by omega, hn3⟩
    · rw [if_neg hm] at h
      injection h with h1
      exact Or.inl h1.symm

/-- The collision loop exits within the fuel bound as soon as some candidate
in range is free. -/
theorem organize_loop_isSome {existing : List (List Char)}
    {artist title ext : List Char} {mnl : Int} :
    ∀ (fuel c : Nat) (target : List Char),
      (target ∉ existing ∨
        ∃ n, c ≤ n ∧ n < c + fuel ∧
          counter_stem artist title mnl n ++ ext ∉ existing) →
      (organize_loop existing artist title ext mnl fuel target c).isSome = true := by
  intro fuel
  induction fuel with
  | zero =>
    intro c target h
    rcases h with h | ⟨n, h1, h2, _⟩
    · rw [organize_loop, if_neg h]
      rfl
    · omega
  | succ f ih =>
    intro c target h
    rw [organize_loop]
    by_cases hm : target ∈ existing
    · rw [if_pos hm]
      apply ih
      rcases h with h | ⟨n, h1, h2, h3⟩
      · exact absurd hm h
      · by_cases hnc : n = c
        · subst hnc
          exact Or.inl h3
        · exact Or.inr ⟨n, by omega, by omega, h3⟩
    · rw [if_neg hm]
      rfl

/-- Pigeonhole: among the first `|existing| + 1` counters, some candidate path
is free, provided none of their stems is truncated. -/
theorem exists_free_counter (existing : List (List Char))
    (artist title ext : List Char) (mnl : Int)
    (hfit : ∀ n, 1 ≤ n → n ≤ existing.length + 1 →
      ((artist ++ " - ".data ++ title ++ " (".data ++ natStr n
        ++ ")".data).length : Int) ≤ mnl) :
    ∃ n, 1 ≤ n ∧ n ≤ existing.length + 1 ∧
      counter_stem artist title mnl n ++ ext ∉ existing := by
  by_contra hc
  push_neg at hc
  have hmaps : ∀ n ∈ Finset.Icc 1 (existing.length + 1),
      counter_stem artist title mnl n ++ ext ∈ existing.toFinset := by
    intro n hn
    rw [Finset.mem_Icc] at hn
    exact List.mem_toFinset.mpr (hc n hn.1 hn.2)
  have hinj : Set.InjOn (fun n => counter_stem artist title mnl n ++ ext)
      (Finset.Icc 1 (existing.length + 1)) := by
    intro i hi j hj hij
    rw [Finset.coe_Icc, Set.mem_Icc] at hi hj
    dsimp only at hij
    rw [counter_stem_of_fits (hfit i hi.1 hi.2),
      counter_stem_of_fits (hfit j hj.1 hj.2)] at hij
    have h1 := List.append_cancel_right hij
    have h2 := List.append_cancel_right h1
    exact natStr_injective (List.append_cancel_left h2)
  have hcard := Finset.card_le_card_of_injOn _ hmaps hinj
  rw [Nat.card_Icc] at hcard
  have hlen := List.toFinset_card_le existing
  omega

/-- C4 (amended: provided the counter-bearing stem fits the length budget for
every counter up to `|existing| + 1`, i.e. the truncation never cuts the
counter off): when the initial target already exists, the collision loop
terminates at a free path whose stem still carries a parenthesized counter
`(n)` with `n ≥ 1`, and the full filename stays within the maximum filename
length; organizing a second file with identical metadata next to an existing
`Artist - Title.mp3` yields `Artist - Title (1).mp3`. -/
theorem organize_collision_resolution
    (existing : List (List Char)) (artist title ext : List Char)
    (max_filename_length : Int)
    (hfit : ∀ n, 1 ≤ n → n ≤ existing.length + 1 →
      ((artist ++ " - ".data ++ title ++ " (".data ++ natStr n
        ++ ")".data).length : Int) ≤ max_filename_length - (ext.length : Int))
    (hcol : initial_stem artist title (max_filename_length - (ext.length : Int))
      ++ ext ∈ existing) :
    (∃ u, organize_target existing artist title ext
        (max_filename_length - (ext.length : Int)) (existing.length + 1) = some u
      ∧ u ∉ existing
      ∧ (∃ n, 1 ≤ n ∧
          u = artist ++ " - ".data ++ title ++ " (".data ++ natStr n
            ++ ")".data ++ ext)
      ∧ (u.length : Int) ≤ max_filename_length)
    ∧ organize_target ["Artist - Title.mp3".data] "Artist".data "Title".data
        ".mp3".data 116 2
      = some "Artist - Title (1).mp3".data := by
  constructor
  · obtain ⟨n0, hn0a, hn0b, hn0f⟩ := exists_free_counter existing artist title ext
      (max_filename_length - (ext.length : Int)) hfit
    have hsome := organize_loop_isSome (existing.length + 1) 1
      (initial_stem artist title (max_filename_length - (ext.length : Int)) ++ ext)
      (Or.inr ⟨n0, hn0a, by omega, hn0f⟩)
    obtain ⟨u, hu⟩ := Option.isSome_iff_exists.mp hsome
    have hnotmem := organize_loop_not_mem hu
    rcases organize_loop_shape hu with h1 | ⟨n, hn1, hn2, hn3⟩
    · exact absurd (h1 ▸ hcol) hnotmem
    · have hfitn := hfit n hn1 (by omega)
      have hufull : u = artist ++ " - ".data ++ title ++ " (".data ++ natStr n
          ++ ")".data ++ ext := by
        rw [hn3, counter_stem_of_fits hfitn]
      refine ⟨u, hu, hnotmem, ⟨n, hn1, hufull⟩, ?_⟩
      rw [hufull, List.length_append, Nat.cast_add]
      omega
  · decide

/-- C4 witness: the amended collision guarantee and the concrete `(1)`
scenario, instantiated at `Artist - Title.mp3` with the default length
budget 120. -/
theorem organize_collision_resolution_witness :
    (∃ u, organize_target ["Artist - Title.mp3".data] "Artist".data "Title".data
        ".mp3".data (120 - ((".mp3".data.length : Nat) : Int))
        (["Artist - Title.mp3".data].length + 1) = some u
      ∧ u ∉ ["Artist - Title.mp3".data]
      ∧ (∃ n, 1 ≤ n ∧
          u = "Artist".data ++ " - ".data ++ "Title".data ++ " (".data ++ natStr n
            ++ ")".data ++ ".mp3".data)
      ∧ (u.length : Int) ≤ 120)
    ∧ organize_target ["Artist - Title.mp3".data] "Artist".data "Title".data
        ".mp3".data 116 2
      = some "Artist - Title (1).mp3".data :=
  organize_collision_resolution ["Artist - Title.mp3".data] "Artist".data
    "Title".data ".mp3".data 120
    (by
      intro n h1 h2
      have h2b : n ≤ 2 := by simpa using h2
      interval_cases n <;> decide)
    (by decide)

/-- C4 counterexample: with a tight budget (`max_filename_length = 10`,
extension `.mp3`, so 6 characters for the stem) the truncation cuts the
parenthesized counter off: every candidate the loop builds collapses to the
same existing path `AB - C.mp3`, so the loop never reaches a free path — the
claim that it always terminates with a fresh counter-bearing path fails. -/
theorem organize_collision_claim_false :
    organize_target ["AB - C.mp3".data] "AB".data "CDEFGH".data ".mp3".data 6 50
      = none
    ∧ ¬ ∃ fuel u, organize_target ["AB - C.mp3".data] "AB".data "CDEFGH".data
        ".mp3".data 6 fuel = some u := by
  have hc : ∀ c : Nat,
      counter_stem "AB".data "CDEFGH".data 6 c ++ ".mp3".data
        = "AB - C.mp3".data := by
    intro c
    have hpos : 1 ≤ (natStr c).length := List.length_pos.mpr (natStr_ne_nil c)
    have hlen : (6 : Int) < (("AB".data ++ " - ".data ++ "CDEFGH".data
        ++ " (".data ++ natStr c ++ ")".data).length : Int) := by
      have l1 : ("AB".data ++ " - ".data ++ "CDEFGH".data ++ " (".data
          ++ natStr c ++ ")".data).length = 14 + (natStr c).length := by
        simp only [List.length_append, List.length_cons, List.length_nil]
        omega
      rw [l1]
      push_cast
      omega
    have e : counter_stem "AB".data "CDEFGH".data 6 c =
        rstrip dotSpace (pySliceTo ("AB".data ++ " - ".data ++ "CDEFGH".data
          ++ " (".data ++ natStr c ++ ")".data) 6) := by
      have e0 : counter_stem "AB".data "CDEFGH".data 6 c =
          if (6 : Int) < (("AB".data ++ " - ".data ++ "CDEFGH".data ++ " (".data
              ++ natStr c ++ ")".data).length : Int) then
            rstrip dotSpace (pySliceTo ("AB".data ++ " - ".data ++ "CDEFGH".data
              ++ " (".data ++ natStr c ++ ")".data) 6)
          else "AB".data ++ " - ".data ++ "CDEFGH".data ++ " (".data
            ++ natStr c ++ ")".data := rfl
      rw [e0, if_pos hlen]
    rw [e]
    rfl
  have hloop : ∀ fuel c,
      organize_loop ["AB - C.mp3".data] "AB".data "CDEFGH".data ".mp3".data 6
        fuel "AB - C.mp3".data c = none := by
    intro fuel
    induction fuel with
    | zero =>
      intro c
      rw [organize_loop, if_pos (by decide)]
    | succ f ih =>
      intro c
      rw [organize_loop, if_pos (by decide), hc c]
      exact ih (c + 1)
  have hmain : ∀ fuel,
      organize_target ["AB - C.mp3".data] "AB".data "CDEFGH".data ".mp3".data 6
        fuel = none := by
    intro fuel
    have hinit : initial_stem "AB".data "CDEFGH".data 6 ++ ".mp3".data
        = "AB - C.mp3".data := by decide
    rw [organize_target, hinit]
    exact hloop fuel 1
  refine ⟨hmain 50, ?_⟩
  rintro ⟨fuel, u, h⟩
  rw [hmain fuel] at h
  exact absurd h (by simp)
